import Mathlib

/-!
Verification of the yoFinance cart subsystem and serverless handlers.

The cart store (`CartContext`) is consumed by `src/frontend/src/pages/CartPage.jsx`
but its implementation file is not part of the sources given here, so the cart
model below is modelled from the specification text (each such definition says
so in its doc comment).  The serverless handlers
`src/supabase/functions/get-admin-orders/index.ts` and
`src/supabase/functions/delete-admin-product/index.ts` and the page
`src/frontend/src/pages/CollectionsPage.jsx` are embedded directly from their
source.
-/

namespace YoFinance

/-- A JSON-like value, used both as the serialization format of the persisted
cart and as the body of the serverless handlers' HTTP responses.  Numbers are
modelled as exact rationals (the idealization of JS numbers used throughout). -/
inductive Json where
  | null : Json
  | bool : Bool → Json
  | num : ℚ → Json
  | str : String → Json
  | arr : List Json → Json
  | obj : List (String × Json) → Json

/-- Field lookup in a JSON object: first binding wins, `none` on non-objects. -/
def getField : Json → String → Option Json
  | Json.obj fields, key => fields.lookup key
  | _, _ => none

/-- Whether a JSON value is an object carrying the given field. -/
def hasField (j : Json) (key : String) : Bool :=
  (getField j key).isSome

/-! ## Cart data model

Modelled from the spec: the Cart Store implementation (`CartContext`) is not
among the given sources; only its consumer `CartPage.jsx` is.  The definitions
below follow spec sections 3 and 4.1 word by word. -/

/-- Modelled from the spec: `ProductRef` is an immutable snapshot reference
`{id, name, price, images[], slug}` captured at add-time. -/
structure ProductRef where
  id : String
  name : String
  price : ℚ
  images : List String
  slug : String
deriving DecidableEq

/-- Modelled from the spec: `CartEntry` is `{ product: ProductRef, quantity: integer }`. -/
structure CartEntry where
  product : ProductRef
  quantity : Int
deriving DecidableEq

/-- Modelled from the spec: `CartState` is an ordered sequence of `CartEntry`
(insertion order preserved for display). -/
abbrev CartState := List CartEntry

/-- Modelled from the spec: `addItem(product, quantity)`.  If an entry for
`product.id` exists, replace its quantity with (existing quantity + quantity)
and refresh the stored `ProductRef` snapshot to the provided `product`;
otherwise append a new entry at the end of the sequence. -/
def addItem (product : ProductRef) (quantity : Int) (s : CartState) : CartState :=
  if s.any (fun e => e.product.id == product.id) then
    s.map (fun e =>
      if e.product.id == product.id then { product := product, quantity := e.quantity + quantity }
      else e)
  else s ++ [{ product := product, quantity := quantity }]

/-- Modelled from the spec: `removeItem(productId)` removes the entry matching
`productId` if present; no-op otherwise. -/
def removeItem (productId : String) (s : CartState) : CartState :=
  s.filter (fun e => !(e.product.id == productId))

/-- Modelled from the spec: `updateQuantity(productId, newQuantity)`.  If
`newQuantity ≤ 0`, behaves as `removeItem(productId)`; otherwise sets that
entry's quantity to `newQuantity`, silently doing nothing if `productId` is
not present. -/
def updateQuantity (productId : String) (newQuantity : Int) (s : CartState) : CartState :=
  if newQuantity ≤ 0 then removeItem productId s
  else s.map (fun e =>
    if e.product.id == productId then { e with quantity := newQuantity } else e)

/-- Modelled from the spec: `clearCart()` empties the sequence. -/
def clearCart (_ : CartState) : CartState := []

/-- Modelled from the spec: `cartCount` = sum of quantities across all entries,
written as the left fold a JS `reduce` performs. -/
def cartCount (s : CartState) : Int :=
  s.foldl (fun acc e => acc + e.quantity) 0

/-- Modelled from the spec: `cartTotal` = sum of (entry.product.price ×
entry.quantity) across all entries, written as the left fold a JS `reduce`
performs. -/
def cartTotal (s : CartState) : ℚ :=
  s.foldl (fun acc e => acc + e.product.price * (e.quantity : ℚ)) 0

/-- One mutation of the Cart Store, for talking about mutation sequences. -/
inductive CartOp where
  | add (product : ProductRef) (quantity : Int)
  | update (productId : String) (newQuantity : Int)
  | remove (productId : String)
  | clear

/-- Apply one mutation to a cart state. -/
def applyOp (s : CartState) : CartOp → CartState
  | CartOp.add p q => addItem p q s
  | CartOp.update i q => updateQuantity i q s
  | CartOp.remove i => removeItem i s
  | CartOp.clear => clearCart s

/-- Apply a sequence of mutations, oldest first. -/
def applyOps (ops : List CartOp) (s : CartState) : CartState :=
  ops.foldl applyOp s

/-- A mutation respecting the `addItem` precondition `quantity ≥ 1`
(the other operations have no precondition). -/
def validOp : CartOp → Bool
  | CartOp.add _ q => 1 ≤ q
  | _ => true

/-! ## Cart persistence

Modelled from the spec: the durable local store holds a serialized `CartState`,
an ordered list of `{product: {...}, quantity: integer}`; rehydration from a
corrupt or absent persisted value yields the empty cart. -/

/-- Modelled from the spec: serialize a product snapshot to its JSON object. -/
def encodeProduct (p : ProductRef) : Json :=
  Json.obj [("id", Json.str p.id), ("name", Json.str p.name),
    ("price", Json.num p.price), ("images", Json.arr (p.images.map Json.str)),
    ("slug", Json.str p.slug)]

/-- Modelled from the spec: serialize one cart entry as
`{product: {...}, quantity: integer}`. -/
def encodeEntry (e : CartEntry) : Json :=
  Json.obj [("product", encodeProduct e.product), ("quantity", Json.num (e.quantity : ℚ))]

/-- Modelled from the spec: serialize a cart state as the ordered list of its
serialized entries. -/
def encodeCart (s : CartState) : Json :=
  Json.arr (s.map encodeEntry)

/-- Decode a JSON string value. -/
def decodeStr : Json → Option String
  | Json.str s => some s
  | _ => none

/-- Decode a JSON number value as a rational. -/
def decodeNum : Json → Option ℚ
  | Json.num q => some q
  | _ => none

/-- Decode a JSON number that is an integer. -/
def decodeInt : Json → Option Int
  | Json.num q => if q.den = 1 then some q.num else none
  | _ => none

/-- Decode every element of a list, failing if any element fails. -/
def decodeList {β : Type} (f : Json → Option β) : List Json → Option (List β)
  | [] => some []
  | x :: xs => do
      let b ← f x
      let bs ← decodeList f xs
      pure (b :: bs)

/-- Decode a JSON array of strings. -/
def decodeStrList : Json → Option (List String)
  | Json.arr xs => decodeList decodeStr xs
  | _ => none

/-- Decode a serialized product snapshot, failing on malformed input. -/
def decodeProduct (j : Json) : Option ProductRef := do
  let id ← getField j "id" >>= decodeStr
  let name ← getField j "name" >>= decodeStr
  let price ← getField j "price" >>= decodeNum
  let images ← getField j "images" >>= decodeStrList
  let slug ← getField j "slug" >>= decodeStr
  pure { id := id, name := name, price := price, images := images, slug := slug }

/-- Decode a serialized cart entry, failing on malformed input. -/
def decodeEntry (j : Json) : Option CartEntry := do
  let product ← getField j "product" >>= decodeProduct
  let quantity ← getField j "quantity" >>= decodeInt
  pure { product := product, quantity := quantity }

/-- Decode a serialized cart state, failing on malformed input. -/
def decodeCart : Json → Option CartState
  | Json.arr xs => decodeList decodeEntry xs
  | _ => none

/-- Modelled from the spec: rehydration at startup.  An absent persisted value
or one that fails to decode is treated as the empty cart; no error is raised. -/
def rehydrate (stored : Option Json) : CartState :=
  match stored with
  | none => []
  | some j => (decodeCart j).getD []

/-! ## Serverless handlers

Embedded from `src/supabase/functions/get-admin-orders/index.ts` and
`src/supabase/functions/delete-admin-product/index.ts`.  Each handler is a
pure function of the request together with the results the Supabase client
would return; the response is a status code and a JSON body, and the handler
additionally reports the query it issued (for get-admin-orders) or whether the
database delete was attempted (for delete-admin-product). -/

/-- An HTTP response: status code and JSON body.  (The OPTIONS branch returns
the plain text body `ok`, modelled as a JSON string.) -/
structure HttpResponse where
  status : Nat
  body : Json

/-- Request to get-admin-orders.  `page` and `limit` hold the query parameters
already parsed to integers (the handler does
`parseInt(url.searchParams.get(..) || default, 10)`); `search` and `status`
hold the raw string parameters after the `|| ''` default. -/
structure OrdersRequest where
  method : String
  authHeader : Option String
  page : Option Int
  limit : Option Int
  search : String
  status : String

/-- The Supabase query built by get-admin-orders: table, ordering, row range
and the optional search/status filters. -/
structure OrdersQuery where
  table : String
  orderColumn : String
  ascending : Bool
  rangeFrom : Int
  rangeTo : Int
  searchFilter : Option String
  statusFilter : Option String
deriving DecidableEq

/-- What awaiting the Supabase query yields: `{ data, error, count }`. -/
structure OrdersDbResult where
  rows : Option (List Json)
  error : Option String
  count : Option Int

/-- The query get-admin-orders builds from the parsed parameters:
select from `orders` with exact count, order by `created_at` descending,
range `[offset, offset + limit - 1]` with `offset = (page - 1) * limit`,
plus the `.or(...)` search filter when `search` is nonempty and the
`.eq('status', status)` filter when `status` is nonempty. -/
def buildOrdersQuery (page limit : Int) (search status : String) : OrdersQuery :=
  { table := "orders"
    orderColumn := "created_at"
    ascending := false
    rangeFrom := (page - 1) * limit
    rangeTo := (page - 1) * limit + limit - 1
    searchFilter :=
      if search = "" then none
      else some (String.intercalate ","
        ["id.ilike.%" ++ search ++ "%",
         "\"shippingAddress\"->>firstName.ilike.%" ++ search ++ "%",
         "\"shippingAddress\"->>lastName.ilike.%" ++ search ++ "%",
         "\"shippingAddress\"->>email.ilike.%" ++ search ++ "%"])
    statusFilter := if status = "" then none else some status }

/-- The JS `Math.ceil(c / n)` on integer operands, as exact rational ceiling. -/
def jsCeilDiv (c n : Int) : Int :=
  Int.ceil ((c : ℚ) / (n : ℚ))

/-- The get-admin-orders handler.  Returns the response together with the
query it issued (`none` when it answered before querying). -/
def getAdminOrders (req : OrdersRequest) (db : OrdersDbResult) :
    HttpResponse × Option OrdersQuery :=
  if req.method = "OPTIONS" then
    ({ status := 200, body := Json.str "ok" }, none)
  else
    match req.authHeader with
    | none =>
        ({ status := 401,
           body := Json.obj [("error", Json.str "Missing Authorization header")] }, none)
    | some _ =>
        let page := req.page.getD 1
        let limit := req.limit.getD 10
        let query := buildOrdersQuery page limit req.search req.status
        match db.error with
        | some msg =>
            ({ status := 400, body := Json.obj [("error", Json.str msg)] }, some query)
        | none =>
            ({ status := 200,
               body := Json.obj [("success", Json.bool true),
                 ("data", Json.obj [
                   ("orders", Json.arr (db.rows.getD [])),
                   ("totalPages", Json.num (jsCeilDiv (db.count.getD 0) limit : ℚ)),
                   ("totalOrders", Json.num (db.count.getD 0 : ℚ)),
                   ("currentPage", Json.num (page : ℚ))])] }, some query)

/-- Request to delete-admin-product: method, Authorization header and the `id`
query parameter. -/
structure DeleteRequest where
  method : String
  authHeader : Option String
  id : Option String

/-- What the Supabase client would answer during delete-admin-product:
`auth.getUser()` yields `{ user, userError }`, the `is_admin` RPC yields
`{ isAdminResult, isAdminError }`, and the delete itself may yield an error. -/
structure DeleteEnv where
  user : Option String
  userError : Option String
  isAdminResult : Bool
  isAdminError : Option String
  deleteError : Option String

/-- The delete-admin-product handler.  Returns the response together with
whether the database delete was attempted. -/
def deleteAdminProduct (req : DeleteRequest) (env : DeleteEnv) :
    HttpResponse × Bool :=
  if req.method = "OPTIONS" then
    ({ status := 200, body := Json.str "ok" }, false)
  else
    match req.authHeader with
    | none =>
        ({ status := 401,
           body := Json.obj [("success", Json.bool false),
             ("error", Json.str "Missing Authorization header")] }, false)
    | some _ =>
        if env.userError.isSome || env.user.isNone then
          ({ status := 401,
             body := Json.obj [("success", Json.bool false),
               ("error", Json.str "Authentication failed")] }, false)
        else if env.isAdminError.isSome || !env.isAdminResult then
          ({ status := 403,
             body := Json.obj [("success", Json.bool false),
               ("error", Json.str "Admin role required.")] }, false)
        else
          match req.id with
          | none =>
              ({ status := 400,
                 body := Json.obj [("success", Json.bool false),
                   ("error", Json.str "Missing product id")] }, false)
          | some _ =>
              match env.deleteError with
              | some msg =>
                  ({ status := 400,
                     body := Json.obj [("success", Json.bool false),
                       ("error", Json.str msg)] }, true)
              | none =>
                  ({ status := 200,
                     body := Json.obj [("success", Json.bool true),
                       ("message", Json.str "Product deleted")] }, true)

/-! ## CollectionsPage fetch paths

Embedded from `src/frontend/src/pages/CollectionsPage.jsx`. -/

/-- `fetchPublicCollections` from CollectionsPage.jsx: invoke the
`get-public-collections` function; on error, catch, log and return `[]`;
otherwise return `data || []`. -/
def fetchPublicCollections {α : Type} (invokeError : Option String)
    (invokeData : Option (List α)) : List α :=
  match invokeError with
  | some _ => []
  | none => invokeData.getD []

/-- The render condition of the Flash Deals section in CollectionsPage.jsx:
`!isLoading && data && data.length > 0`.  With react-query, `data` is
`undefined` (here `none`) while loading or when the query errored. -/
def flashDealsVisible (isLoading : Bool) (data : Option (List Json)) : Bool :=
  !isLoading && (match data with
    | none => false
    | some l => decide (0 < l.length))

/-! ## Helper lemmas -/

theorem foldl_add_map_sum {M : Type} [AddCommMonoid M] (g : CartEntry → M) :
    ∀ (s : List CartEntry) (a : M),
      s.foldl (fun acc e => acc + g e) a = a + (s.map g).sum := by
  intro s
  induction s with
  | nil => intro a; simp
  | cons e t ih => intro a; simp [List.foldl_cons, ih, add_assoc]

theorem cartCount_eq_sum (s : CartState) :
    cartCount s = (s.map CartEntry.quantity).sum := by
  simpa using foldl_add_map_sum CartEntry.quantity s 0

theorem cartTotal_eq_sum (s : CartState) :
    cartTotal s = (s.map (fun e => e.product.price * (e.quantity : ℚ))).sum := by
  simpa using foldl_add_map_sum (fun e => e.product.price * (e.quantity : ℚ)) s 0

/-! ## Claim theorems -/

/-- Claim C1: for every CartState, `cartCount` equals the sum of quantities
across all entries and `cartTotal` equals the sum of price × quantity across
all entries; this holds after any sequence of mutations, and for the empty
cart both are 0. -/
theorem cart_derived_accessors_correct :
    (∀ s : CartState,
        cartCount s = (s.map CartEntry.quantity).sum
          ∧ cartTotal s = (s.map (fun e => e.product.price * (e.quantity : ℚ))).sum)
    ∧ (∀ (ops : List CartOp) (s₀ : CartState),
        cartCount (applyOps ops s₀)
            = ((applyOps ops s₀).map CartEntry.quantity).sum
          ∧ cartTotal (applyOps ops s₀)
            = ((applyOps ops s₀).map (fun e => e.product.price * (e.quantity : ℚ))).sum)
    ∧ cartCount [] = 0 ∧ cartTotal [] = 0 := by
  refine ⟨fun s => ⟨cartCount_eq_sum s, cartTotal_eq_sum s⟩,
    fun ops s₀ => ⟨cartCount_eq_sum _, cartTotal_eq_sum _⟩, rfl, rfl⟩

theorem map_if_no_match (i : String) (g : CartEntry → CartEntry) :
    ∀ s : CartState, (∀ e ∈ s, e.product.id ≠ i) →
      s.map (fun e => if e.product.id == i then g e else e) = s := by
  intro s
  induction s with
  | nil => intro _; rfl
  | cons e t ih =>
      intro h
      have he : (e.product.id == i) = false := by
        simp only [beq_eq_false_iff_ne]
        exact h e (List.mem_cons_self e t)
      simp only [List.map_cons, he, if_neg Bool.false_ne_true, cond_false]
      rw [ih fun x hx => h x (List.mem_cons_of_mem e hx)]

theorem addItem_of_not_mem (p : ProductRef) (q : Int) (s : CartState)
    (h : ∀ e ∈ s, e.product.id ≠ p.id) :
    addItem p q s = s ++ [{ product := p, quantity := q }] := by
  have hany : s.any (fun e => e.product.id == p.id) = false := by
    simp only [List.any_eq_false, beq_iff_eq]
    exact h
  simp [addItem, hany]

theorem addItem_match_last (s₀ : CartState) (p₀ : ProductRef) (q₀ : Int)
    (p : ProductRef) (q : Int) (h₀ : ∀ e ∈ s₀, e.product.id ≠ p.id)
    (hp₀ : p₀.id = p.id) :
    addItem p q (s₀ ++ [{ product := p₀, quantity := q₀ }])
      = s₀ ++ [{ product := p, quantity := q₀ + q }] := by
  have hany : (s₀ ++ [({ product := p₀, quantity := q₀ } : CartEntry)]).any
      (fun e => e.product.id == p.id) = true := by
    simp [List.any_append, hp₀]
  simp only [addItem, hany, if_pos rfl, List.map_append]
  rw [map_if_no_match p.id _ s₀ h₀]
  simp [hp₀]

theorem fold_addItem_acc (i : String) :
    ∀ (adds : List (ProductRef × Int)) (s₀ : CartState) (p₀ : ProductRef) (q₀ : Int),
      (∀ e ∈ s₀, e.product.id ≠ i) → p₀.id = i →
      (∀ pq ∈ adds, pq.1.id = i) →
      adds.foldl (fun t pq => addItem pq.1 pq.2 t)
          (s₀ ++ [{ product := p₀, quantity := q₀ }])
        = s₀ ++ [{ product := adds.foldl (fun _ pq => pq.1) p₀,
                   quantity := q₀ + (adds.map Prod.snd).sum }] := by
  intro adds
  induction adds with
  | nil => intro s₀ p₀ q₀ _ _ _; simp
  | cons pq rest ih =>
      intro s₀ p₀ q₀ hs hp₀ hall
      have hpq : pq.1.id = i := hall pq (List.mem_cons_self pq rest)
      have hs' : ∀ e ∈ s₀, e.product.id ≠ pq.1.id := by
        intro e he
        rw [hpq]
        exact hs e he
      rw [List.foldl_cons, addItem_match_last s₀ p₀ q₀ pq.1 pq.2 hs' (by rw [hp₀, hpq]),
        ih s₀ pq.1 (q₀ + pq.2) hs hpq fun x hx => hall x (List.mem_cons_of_mem pq hx)]
      simp [add_assoc]

theorem foldl_pick_last :
    ∀ (l : List (ProductRef × Int)) (hne : l ≠ []) (a : ProductRef),
      l.foldl (fun _ pq => pq.1) a = (l.getLast hne).1 := by
  intro l
  induction l with
  | nil => intro h; exact absurd rfl h
  | cons x t ih =>
      intro hne a
      cases t with
      | nil => rfl
      | cons y u =>
          rw [List.foldl_cons, ih (List.cons_ne_nil y u) x.1,
            List.getLast_cons (List.cons_ne_nil y u)]

/-- Claim C2: folding a nonempty sequence of addItem calls that share one
product id (each quantity ≥ 1) over a cart not yet containing that id appends
exactly one entry at the end, whose quantity is the sum of the added
quantities and whose snapshot is the product of the last call; exactly one
entry for that id exists afterwards. -/
theorem addItem_same_id_accumulates (s : CartState) (i : String)
    (adds : List (ProductRef × Int)) (hne : adds ≠ [])
    (hid : ∀ pq ∈ adds, pq.1.id = i)
    (hq : ∀ pq ∈ adds, 1 ≤ pq.2)
    (hs : ∀ e ∈ s, e.product.id ≠ i) :
    adds.foldl (fun t pq => addItem pq.1 pq.2 t) s
        = s ++ [{ product := (adds.getLast hne).1,
                  quantity := (adds.map Prod.snd).sum }]
    ∧ (adds.foldl (fun t pq => addItem pq.1 pq.2 t) s).countP
        (fun e => e.product.id == i) = 1 := by
  cases adds with
  | nil => exact absurd rfl hne
  | cons pq rest =>
      have hpq : pq.1.id = i := hid pq (List.mem_cons_self pq rest)
      have hs' : ∀ e ∈ s, e.product.id ≠ pq.1.id := by
        intro e he; rw [hpq]; exact hs e he
      have hmain : (pq :: rest).foldl (fun t x => addItem x.1 x.2 t) s
          = s ++ [{ product := ((pq :: rest).getLast hne).1,
                    quantity := ((pq :: rest).map Prod.snd).sum }] := by
        rw [List.foldl_cons, addItem_of_not_mem pq.1 pq.2 s hs',
          fold_addItem_acc i rest s pq.1 pq.2 hs hpq
            (fun x hx => hid x (List.mem_cons_of_mem pq hx))]
        have hlast : rest.foldl (fun _ x => x.1) pq.1
            = ((pq :: rest).getLast hne).1 := by
          rw [← foldl_pick_last (pq :: rest) hne pq.1, List.foldl_cons]
        rw [hlast]
        simp
      refine ⟨hmain, ?_⟩
      rw [hmain, List.countP_append]
      have hzero : s.countP (fun e => e.product.id == i) = 0 := by
        rw [List.countP_eq_zero]
        intro e he
        simp only [beq_iff_eq]
        exact hs e he
      have hone : (((pq :: rest).getLast hne).1).id = i :=
        hid _ (List.getLast_mem hne)
      simp [hzero, List.countP_cons, hone]

/-- A sample product snapshot used in witnesses. -/
def pA : ProductRef :=
  { id := "p1", name := "Tee", price := 10, images := [], slug := "tee" }

/-- A second snapshot of the same product id with refreshed fields. -/
def pB : ProductRef :=
  { id := "p1", name := "Tee v2", price := 12, images := ["a.jpg"], slug := "tee-v2" }

/-- A sample product snapshot with a different id. -/
def pC : ProductRef :=
  { id := "p2", name := "Watch", price := 50, images := [], slug := "watch" }

theorem addItem_same_id_accumulates_witness :
    ([((pA : ProductRef), (2 : Int)), (pB, 3)] ≠ [])
    ∧ [((pA : ProductRef), (2 : Int)), (pB, 3)].foldl
        (fun t pq => addItem pq.1 pq.2 t) []
        = [{ product := pB, quantity := 5 }]
    ∧ ([((pA : ProductRef), (2 : Int)), (pB, 3)].foldl
        (fun t pq => addItem pq.1 pq.2 t) []).countP
        (fun e => e.product.id == "p1") = 1 := by
  have h := addItem_same_id_accumulates [] "p1" [(pA, 2), (pB, 3)]
    (by simp) (by decide) (by decide) (by simp)
  exact ⟨by simp, h.1, h.2⟩

theorem applyOp_preserves_pos (s : CartState) (op : CartOp)
    (hs : ∀ e ∈ s, 1 ≤ e.quantity) (hop : validOp op = true) :
    ∀ e ∈ applyOp s op, 1 ≤ e.quantity := by
  cases op with
  | add p q =>
      have hq : 1 ≤ q := by simpa [validOp] using hop
      intro e he
      simp only [applyOp, addItem] at he
      split at he
      · rcases List.mem_map.1 he with ⟨x, hx, rfl⟩
        split
        · have := hs x hx
          show 1 ≤ x.quantity + q
          omega
        · exact hs x hx
      · rcases List.mem_append.1 he with hx | hx
        · exact hs e hx
        · rcases List.mem_singleton.1 hx with rfl
          exact hq
  | update i q =>
      intro e he
      simp only [applyOp, updateQuantity] at he
      split at he
      · simp only [removeItem] at he
        exact hs e (List.mem_filter.1 he).1
      · rcases List.mem_map.1 he with ⟨x, hx, rfl⟩
        split
        · show 1 ≤ q
          omega
        · exact hs x hx
  | remove i =>
      intro e he
      simp only [applyOp, removeItem] at he
      exact hs e (List.mem_filter.1 he).1
  | clear =>
      intro e he
      simp [applyOp, clearCart] at he

theorem applyOps_preserves_pos :
    ∀ (ops : List CartOp) (s : CartState),
      (∀ e ∈ s, 1 ≤ e.quantity) → (∀ op ∈ ops, validOp op = true) →
      ∀ e ∈ applyOps ops s, 1 ≤ e.quantity := by
  intro ops
  induction ops with
  | nil => intro s hs _; exact hs
  | cons op rest ih =>
      intro s hs hval
      have h₁ := applyOp_preserves_pos s op hs
        (hval op (List.mem_cons_self op rest))
      exact ih (applyOp s op) h₁ fun x hx => hval x (List.mem_cons_of_mem op hx)

/-- Claim C3: every cart state reachable from the empty cart through
well-formed mutations (addItem with quantity ≥ 1) has all entry quantities
≥ 1 — no entry with quantity 0 or negative ever persists — and a single
well-formed mutation preserves this invariant from any state satisfying it. -/
theorem cart_quantity_invariant (ops : List CartOp) (s : CartState) (op : CartOp)
    (hval : ∀ o ∈ ops, validOp o = true)
    (hs : s.all (fun e => decide (1 ≤ e.quantity)) = true)
    (hop : validOp op = true) :
    (applyOps ops []).all (fun e => decide (1 ≤ e.quantity)) = true
    ∧ (applyOp s op).all (fun e => decide (1 ≤ e.quantity)) = true := by
  constructor
  · rw [List.all_eq_true]
    intro e he
    simpa using applyOps_preserves_pos ops [] (by simp) hval e he
  · rw [List.all_eq_true]
    intro e he
    have hs' : ∀ e ∈ s, 1 ≤ e.quantity := by
      intro x hx
      simpa using List.all_eq_true.1 hs x hx
    simpa using applyOp_preserves_pos s op hs' hop e he

theorem cart_quantity_invariant_witness :
    (applyOps [CartOp.add pA 2, CartOp.add pB 3, CartOp.update "p1" 1,
        CartOp.add pC 1, CartOp.update "p2" 0, CartOp.remove "zzz"] []).all
        (fun e => decide (1 ≤ e.quantity)) = true
    ∧ (applyOp [{ product := pA, quantity := 2 }] (CartOp.update "p1" (-5))).all
        (fun e => decide (1 ≤ e.quantity)) = true :=
  cart_quantity_invariant
    [CartOp.add pA 2, CartOp.add pB 3, CartOp.update "p1" 1,
      CartOp.add pC 1, CartOp.update "p2" 0, CartOp.remove "zzz"]
    [{ product := pA, quantity := 2 }] (CartOp.update "p1" (-5))
    (by decide) (by decide) (by decide)

/-- Claim C4: on any cart containing the product id, updateQuantity with a
new quantity ≤ 0 produces exactly the state removeItem produces; in
particular updateQuantity with 0 and with -1 equal removeItem and leave no
entry with that id behind. -/
theorem updateQuantity_nonpositive_removes (s : CartState) (i : String) (q : Int)
    (hq : q ≤ 0) (_hi : s.any (fun e => e.product.id == i) = true) :
    updateQuantity i q s = removeItem i s
    ∧ updateQuantity i 0 s = removeItem i s
    ∧ updateQuantity i (-1) s = removeItem i s
    ∧ (updateQuantity i 0 s).all (fun e => !(e.product.id == i)) = true
    ∧ (updateQuantity i (-1) s).all (fun e => !(e.product.id == i)) = true := by
  have h0 : updateQuantity i 0 s = removeItem i s := by
    simp [updateQuantity]
  have h1 : updateQuantity i (-1) s = removeItem i s := by
    simp [updateQuantity]
  have habs : (removeItem i s).all (fun e => !(e.product.id == i)) = true := by
    rw [List.all_eq_true]
    intro e he
    exact (List.mem_filter.1 he).2
  exact ⟨by simp [updateQuantity, hq], h0, h1, by rw [h0]; exact habs,
    by rw [h1]; exact habs⟩

theorem updateQuantity_nonpositive_removes_witness :
    ((-2 : Int) ≤ 0)
    ∧ updateQuantity "p1" (-2) [{ product := pA, quantity := 2 }]
        = removeItem "p1" [{ product := pA, quantity := 2 }]
    ∧ updateQuantity "p1" 0 [{ product := pA, quantity := 2 }]
        = removeItem "p1" [{ product := pA, quantity := 2 }]
    ∧ updateQuantity "p1" (-1) [{ product := pA, quantity := 2 }]
        = removeItem "p1" [{ product := pA, quantity := 2 }]
    ∧ (updateQuantity "p1" 0 [{ product := pA, quantity := 2 }]).all
        (fun e => !(e.product.id == "p1")) = true
    ∧ (updateQuantity "p1" (-1) [{ product := pA, quantity := 2 }]).all
        (fun e => !(e.product.id == "p1")) = true := by
  have h := updateQuantity_nonpositive_removes [{ product := pA, quantity := 2 }]
    "p1" (-2) (by decide) (by decide)
  exact ⟨by decide, h.1, h.2.1, h.2.2.1, h.2.2.2.1, h.2.2.2.2⟩

/-- Claim C5: when the product id is absent, updateQuantity and removeItem
raise no error and leave the cart unchanged, including on the empty cart. -/
theorem cart_missing_id_noop (s : CartState) (i : String) (q : Int)
    (h : s.all (fun e => !(e.product.id == i)) = true) :
    updateQuantity i q s = s ∧ removeItem i s = s
    ∧ updateQuantity i q ([] : CartState) = []
    ∧ removeItem i ([] : CartState) = [] := by
  have hne : ∀ e ∈ s, e.product.id ≠ i := by
    intro x hx
    simpa using List.all_eq_true.1 h x hx
  have hrem : removeItem i s = s :=
    List.filter_eq_self.2 fun e he => List.all_eq_true.1 h e he
  refine ⟨?_, hrem, ?_, rfl⟩
  · unfold updateQuantity
    split
    · exact hrem
    · exact map_if_no_match i _ s hne
  · unfold updateQuantity
    split
    · rfl
    · rfl

theorem cart_missing_id_noop_witness :
    ([{ product := pC, quantity := 1 }] : CartState).all
        (fun e => !(e.product.id == "p1")) = true
    ∧ updateQuantity "p1" 3 [{ product := pC, quantity := 1 }]
        = [{ product := pC, quantity := 1 }]
    ∧ removeItem "p1" [{ product := pC, quantity := 1 }]
        = [{ product := pC, quantity := 1 }]
    ∧ updateQuantity "p1" 3 ([] : CartState) = []
    ∧ removeItem "p1" ([] : CartState) = [] := by
  have h := cart_missing_id_noop [{ product := pC, quantity := 1 }] "p1" 3 (by decide)
  exact ⟨by decide, h.1, h.2.1, h.2.2.1, h.2.2.2⟩

theorem decodeList_map_encode {β : Type} (f : Json → Option β) (g : β → Json)
    (hfg : ∀ b, f (g b) = some b) :
    ∀ l : List β, decodeList f (l.map g) = some l := by
  intro l
  induction l with
  | nil => rfl
  | cons b t ih => simp [decodeList, hfg, ih]

theorem decodeStr_encode (s : String) : decodeStr (Json.str s) = some s := rfl

theorem decodeProduct_encodeProduct (p : ProductRef) :
    decodeProduct (encodeProduct p) = some p := by
  have himg : decodeStrList (Json.arr (p.images.map Json.str)) = some p.images := by
    simp [decodeStrList, decodeList_map_encode decodeStr Json.str decodeStr_encode]
  simp [decodeProduct, encodeProduct, getField, List.lookup, himg, decodeStr, decodeNum]

theorem decodeEntry_encodeEntry (e : CartEntry) :
    decodeEntry (encodeEntry e) = some e := by
  simp [decodeEntry, encodeEntry, getField, List.lookup,
    decodeProduct_encodeProduct, decodeInt, Rat.den_intCast, Rat.num_intCast]

theorem decodeCart_encodeCart (s : CartState) :
    decodeCart (encodeCart s) = some s := by
  simp [decodeCart, encodeCart,
    decodeList_map_encode decodeEntry encodeEntry decodeEntry_encodeEntry]

/-- Claim C6: rehydrating from the exact serialized form of a cart state
reproduces an equal cart state (same entries, same order, same quantities),
while rehydrating from an absent or undecodable persisted value yields the
empty cart without error. -/
theorem cart_persistence_roundtrip (s : CartState) (j : Json)
    (hbad : decodeCart j = none) :
    rehydrate (some (encodeCart s)) = s
    ∧ decodeCart (encodeCart s) = some s
    ∧ rehydrate none = []
    ∧ rehydrate (some j) = [] := by
  refine ⟨?_, decodeCart_encodeCart s, rfl, ?_⟩
  · simp [rehydrate, decodeCart_encodeCart s]
  · simp [rehydrate, hbad]

theorem cart_persistence_roundtrip_witness :
    decodeCart (Json.str "corrupt") = none
    ∧ rehydrate (some (encodeCart
        [{ product := pA, quantity := 2 }, { product := pC, quantity := 1 }]))
        = [{ product := pA, quantity := 2 }, { product := pC, quantity := 1 }]
    ∧ decodeCart (encodeCart
        [{ product := pA, quantity := 2 }, { product := pC, quantity := 1 }])
        = some [{ product := pA, quantity := 2 }, { product := pC, quantity := 1 }]
    ∧ rehydrate none = []
    ∧ rehydrate (some (Json.str "corrupt")) = [] := by
  have h := cart_persistence_roundtrip
    [{ product := pA, quantity := 2 }, { product := pC, quantity := 1 }]
    (Json.str "corrupt") rfl
  exact ⟨rfl, h.1, h.2.1, h.2.2.1, h.2.2.2⟩

/-- Claim C7 counterexample: the non-OPTIONS missing-authorization response of
get-admin-orders carries no top-level `success` flag at all (its body is just
`{error: ...}`), and even its success response carries no top-level `count`. -/
theorem orders_error_response_lacks_success_flag :
    ("GET" : String) ≠ "OPTIONS"
    ∧ hasField ((getAdminOrders
        { method := "GET", authHeader := none, page := none, limit := none,
          search := "", status := "" }
        { rows := none, error := none, count := none }).1.body) "success" = false
    ∧ (getAdminOrders
        { method := "GET", authHeader := none, page := none, limit := none,
          search := "", status := "" }
        { rows := none, error := none, count := none }).1.status = 401
    ∧ hasField ((getAdminOrders
        { method := "GET", authHeader := some "token", page := none, limit := none,
          search := "", status := "" }
        { rows := some [], error := none, count := some 0 }).1.body) "count" = false := by
  exact ⟨by decide, rfl, rfl, rfl⟩

/-- Extract the top-level `success` flag of a JSON response body, when it is
a boolean field. -/
def successFlag (j : Json) : Option Bool :=
  match getField j "success" with
  | some (Json.bool b) => some b
  | _ => none

/-- Claim C7 (amended): every non-OPTIONS response of delete-admin-product
carries a top-level `success` flag — true on success, or false alongside an
`error` field; every non-OPTIONS response of get-admin-orders is either the
success body (`success: true` with the payload under `data`) or an error body
carrying `error` and no `success` flag; neither handler ever carries a
top-level `count`. -/
theorem handlers_response_shape (dreq : DeleteRequest) (denv : DeleteEnv)
    (oreq : OrdersRequest) (odb : OrdersDbResult)
    (hd : dreq.method ≠ "OPTIONS") (ho : oreq.method ≠ "OPTIONS") :
    hasField (deleteAdminProduct dreq denv).1.body "success" = true
    ∧ (getField (deleteAdminProduct dreq denv).1.body "success" = some (Json.bool true)
        ∨ (getField (deleteAdminProduct dreq denv).1.body "success" = some (Json.bool false)
          ∧ hasField (deleteAdminProduct dreq denv).1.body "error" = true))
    ∧ ((getField (getAdminOrders oreq odb).1.body "success" = some (Json.bool true)
          ∧ hasField (getAdminOrders oreq odb).1.body "data" = true)
        ∨ (hasField (getAdminOrders oreq odb).1.body "error" = true
          ∧ hasField (getAdminOrders oreq odb).1.body "success" = false))
    ∧ hasField (deleteAdminProduct dreq denv).1.body "count" = false
    ∧ hasField (getAdminOrders oreq odb).1.body "count" = false := by
  have hdel : hasField (deleteAdminProduct dreq denv).1.body "success" = true
      ∧ (getField (deleteAdminProduct dreq denv).1.body "success" = some (Json.bool true)
          ∨ (getField (deleteAdminProduct dreq denv).1.body "success" = some (Json.bool false)
            ∧ hasField (deleteAdminProduct dreq denv).1.body "error" = true))
      ∧ hasField (deleteAdminProduct dreq denv).1.body "count" = false := by
    unfold deleteAdminProduct
    rw [if_neg hd]
    cases hah : dreq.authHeader with
    | none => exact ⟨rfl, Or.inr ⟨rfl, rfl⟩, rfl⟩
    | some tok =>
        by_cases h1 : (denv.userError.isSome || denv.user.isNone) = true
        · rw [if_pos h1]
          exact ⟨rfl, Or.inr ⟨rfl, rfl⟩, rfl⟩
        · rw [if_neg h1]
          by_cases h2 : (denv.isAdminError.isSome || !denv.isAdminResult) = true
          · rw [if_pos h2]
            exact ⟨rfl, Or.inr ⟨rfl, rfl⟩, rfl⟩
          · rw [if_neg h2]
            cases hid : dreq.id with
            | none => exact ⟨rfl, Or.inr ⟨rfl, rfl⟩, rfl⟩
            | some pid =>
                cases hde : denv.deleteError with
                | none => exact ⟨rfl, Or.inl rfl, rfl⟩
                | some msg => exact ⟨rfl, Or.inr ⟨rfl, rfl⟩, rfl⟩
  have hord : ((getField (getAdminOrders oreq odb).1.body "success"
          = some (Json.bool true)
        ∧ hasField (getAdminOrders oreq odb).1.body "data" = true)
        ∨ (hasField (getAdminOrders oreq odb).1.body "error" = true
          ∧ hasField (getAdminOrders oreq odb).1.body "success" = false))
      ∧ hasField (getAdminOrders oreq odb).1.body "count" = false := by
    unfold getAdminOrders
    rw [if_neg ho]
    cases hah : oreq.authHeader with
    | none => exact ⟨Or.inr ⟨rfl, rfl⟩, rfl⟩
    | some tok =>
        cases herr : odb.error with
        | some msg => exact ⟨Or.inr ⟨rfl, rfl⟩, rfl⟩
        | none => exact ⟨Or.inl ⟨rfl, rfl⟩, rfl⟩
  exact ⟨hdel.1, hdel.2.1, hord.1, hdel.2.2, hord.2⟩

theorem handlers_response_shape_witness :
    ("DELETE" : String) ≠ "OPTIONS"
    ∧ hasField (deleteAdminProduct
        { method := "DELETE", authHeader := some "t", id := some "p9" }
        { user := some "u", userError := none, isAdminResult := true,
          isAdminError := none, deleteError := none }).1.body "success" = true
    ∧ (getField (deleteAdminProduct
        { method := "DELETE", authHeader := some "t", id := some "p9" }
        { user := some "u", userError := none, isAdminResult := true,
          isAdminError := none, deleteError := none }).1.body "success"
          = some (Json.bool true)
        ∨ (getField (deleteAdminProduct
            { method := "DELETE", authHeader := some "t", id := some "p9" }
            { user := some "u", userError := none, isAdminResult := true,
              isAdminError := none, deleteError := none }).1.body "success"
            = some (Json.bool false)
          ∧ hasField (deleteAdminProduct
              { method := "DELETE", authHeader := some "t", id := some "p9" }
              { user := some "u", userError := none, isAdminResult := true,
                isAdminError := none, deleteError := none }).1.body "error" = true))
    ∧ ((getField (getAdminOrders
          { method := "GET", authHeader := some "t", page := some 2,
            limit := some 5, search := "", status := "" }
          { rows := some [], error := none, count := some 12 }).1.body "success"
            = some (Json.bool true)
        ∧ hasField (getAdminOrders
            { method := "GET", authHeader := some "t", page := some 2,
              limit := some 5, search := "", status := "" }
            { rows := some [], error := none, count := some 12 }).1.body "data" = true)
        ∨ (hasField (getAdminOrders
            { method := "GET", authHeader := some "t", page := some 2,
              limit := some 5, search := "", status := "" }
            { rows := some [], error := none, count := some 12 }).1.body "error" = true
          ∧ hasField (getAdminOrders
              { method := "GET", authHeader := some "t", page := some 2,
                limit := some 5, search := "", status := "" }
              { rows := some [], error := none, count := some 12 }).1.body "success"
              = false)) := by
  have h := handlers_response_shape
    { method := "DELETE", authHeader := some "t", id := some "p9" }
    { user := some "u", userError := none, isAdminResult := true,
      isAdminError := none, deleteError := none }
    { method := "GET", authHeader := some "t", page := some 2,
      limit := some 5, search := "", status := "" }
    { rows := some [], error := none, count := some 12 }
    (by decide) (by decide)
  exact ⟨by decide, h.1, h.2.1, h.2.2.1⟩

/-- Claim C8: a failed remote fetch and an empty result are indistinguishable:
fetchPublicCollections returns `[]` both when the invocation errors and when
it succeeds with no data, and the Flash Deals section renders identically
(hidden) whether its query errored or returned an empty list. -/
theorem fetch_error_empty_indistinguishable :
    (∀ (α : Type) (e : String) (d : Option (List α)),
        fetchPublicCollections (some e) d = []
        ∧ fetchPublicCollections (none : Option String) (some ([] : List α)) = []
        ∧ fetchPublicCollections (some e) d
            = fetchPublicCollections (none : Option String) (some ([] : List α)))
    ∧ flashDealsVisible false none = false
    ∧ flashDealsVisible false (some []) = false
    ∧ flashDealsVisible false none = flashDealsVisible false (some []) := by
  exact ⟨fun α e d => ⟨rfl, rfl, rfl⟩, rfl, rfl, rfl⟩

/-- Convenience constructor for an authorized get-admin-orders request. -/
def mkOrdersRequest (method tok : String) (pOpt nOpt : Option Int)
    (search status : String) : OrdersRequest :=
  { method := method, authHeader := some tok, page := pOpt,
    limit := nOpt, search := search, status := status }

/-- A sample database answer for get-admin-orders: 25 matching rows total. -/
def db25 : OrdersDbResult :=
  { rows := some [], error := none, count := some 25 }

/-- Claim C9: for an authorized non-OPTIONS request with page `p` and limit
`n` (defaulting to 1 and 10 when absent, `n ≥ 1`), get-admin-orders queries
the `orders` table over the row range `[(p−1)·n, p·n−1]` ordered by
`created_at` descending, and on success answers 200 with
`totalPages = ⌈count/n⌉`, `totalOrders = count` and `currentPage = p`, the
count taken as 0 when the store reports none. -/
theorem getAdminOrders_pagination (method tok : String) (pOpt nOpt : Option Int)
    (search status : String) (db : OrdersDbResult)
    (hm : method ≠ "OPTIONS") (_hn : 1 ≤ nOpt.getD 10) (herr : db.error = none) :
    (getAdminOrders (mkOrdersRequest method tok pOpt nOpt search status) db).2
      = some (buildOrdersQuery (pOpt.getD 1) (nOpt.getD 10) search status)
    ∧ (buildOrdersQuery (pOpt.getD 1) (nOpt.getD 10) search status).table = "orders"
    ∧ (buildOrdersQuery (pOpt.getD 1) (nOpt.getD 10) search status).orderColumn
        = "created_at"
    ∧ (buildOrdersQuery (pOpt.getD 1) (nOpt.getD 10) search status).ascending = false
    ∧ (buildOrdersQuery (pOpt.getD 1) (nOpt.getD 10) search status).rangeFrom
        = (pOpt.getD 1 - 1) * nOpt.getD 10
    ∧ (buildOrdersQuery (pOpt.getD 1) (nOpt.getD 10) search status).rangeTo
        = pOpt.getD 1 * nOpt.getD 10 - 1
    ∧ (getAdminOrders (mkOrdersRequest method tok pOpt nOpt search status)
        db).1.status = 200
    ∧ (getField ((getAdminOrders (mkOrdersRequest method tok pOpt nOpt search status)
          db).1.body) "data").bind (fun d => getField d "totalPages")
        = some (Json.num ((Int.ceil ((db.count.getD 0 : ℚ) / (nOpt.getD 10 : ℚ))
            : Int) : ℚ))
    ∧ (getField ((getAdminOrders (mkOrdersRequest method tok pOpt nOpt search status)
          db).1.body) "data").bind (fun d => getField d "totalOrders")
        = some (Json.num ((db.count.getD 0 : Int) : ℚ))
    ∧ (getField ((getAdminOrders (mkOrdersRequest method tok pOpt nOpt search status)
          db).1.body) "data").bind (fun d => getField d "currentPage")
        = some (Json.num ((pOpt.getD 1 : Int) : ℚ)) := by
  unfold getAdminOrders
  rw [if_neg ((by simpa [mkOrdersRequest] using hm :
    ¬ (mkOrdersRequest method tok pOpt nOpt search status).method = "OPTIONS"))]
  simp only [mkOrdersRequest]
  rw [herr]
  refine ⟨rfl, rfl, rfl, rfl, rfl, ?_, rfl, rfl, rfl, rfl⟩
  show (pOpt.getD 1 - 1) * nOpt.getD 10 + nOpt.getD 10 - 1
      = pOpt.getD 1 * nOpt.getD 10 - 1
  ring

theorem getAdminOrders_pagination_witness :
    ("GET" : String) ≠ "OPTIONS"
    ∧ (1 : Int) ≤ (some (10 : Int)).getD 10
    ∧ (getAdminOrders (mkOrdersRequest "GET" "t" (some 3) (some 10) "" "") db25).2
      = some (buildOrdersQuery 3 10 "" "")
    ∧ (buildOrdersQuery 3 10 "" "").rangeFrom = 20
    ∧ (buildOrdersQuery 3 10 "" "").rangeTo = 29
    ∧ (buildOrdersQuery 3 10 "" "").orderColumn = "created_at"
    ∧ (buildOrdersQuery 3 10 "" "").ascending = false
    ∧ (getAdminOrders (mkOrdersRequest "GET" "t" (some 3) (some 10) "" "")
        db25).1.status = 200
    ∧ (getField ((getAdminOrders (mkOrdersRequest "GET" "t" (some 3) (some 10) "" "")
          db25).1.body) "data").bind (fun d => getField d "totalPages")
        = some (Json.num ((Int.ceil ((25 : ℚ) / (10 : ℚ)) : Int) : ℚ))
    ∧ (getField ((getAdminOrders (mkOrdersRequest "GET" "t" (some 3) (some 10) "" "")
          db25).1.body) "data").bind (fun d => getField d "totalOrders")
        = some (Json.num ((25 : Int) : ℚ))
    ∧ (getField ((getAdminOrders (mkOrdersRequest "GET" "t" (some 3) (some 10) "" "")
          db25).1.body) "data").bind (fun d => getField d "currentPage")
        = some (Json.num ((3 : Int) : ℚ)) := by
  have h := getAdminOrders_pagination "GET" "t" (some 3) (some 10) "" "" db25
    (by decide) (by decide) rfl
  exact ⟨by decide, by decide, h.1, h.2.2.2.2.1, h.2.2.2.2.2.1, h.2.2.1, h.2.2.2.1,
    h.2.2.2.2.2.2.1, h.2.2.2.2.2.2.2.1, h.2.2.2.2.2.2.2.2.1, h.2.2.2.2.2.2.2.2.2⟩

/-- The guard cascade as claim C10 states it, written from the claim's words:
missing Authorization header gives 401, failed authentication gives 401, a
non-admin gives 403, a missing id gives 400, each with `success: false` and
the delete not attempted; only with all guards passed is the delete issued,
answering 400 with `success: false` when it errors and 200 with
`success: true` otherwise. -/
def deleteGuardOutcome (req : DeleteRequest) (env : DeleteEnv) :
    Nat × Option Bool × Bool :=
  if req.authHeader.isNone then (401, some false, false)
  else if !(env.userError.isNone && env.user.isSome) then (401, some false, false)
  else if !(env.isAdminError.isNone && env.isAdminResult) then (403, some false, false)
  else if req.id.isNone then (400, some false, false)
  else if env.deleteError.isSome then (400, some false, true)
  else (200, some true, true)

/-- Claim C10: on every non-OPTIONS request, delete-admin-product follows
exactly the guard cascade of `deleteGuardOutcome` — status code, top-level
success flag and whether the delete was attempted — and the delete is
attempted precisely when the Authorization header is present, authentication
succeeds, is_admin holds and the id parameter is present; on every guard
failure the body has `success: false` and the database is untouched. -/
theorem deleteAdminProduct_guard_order (req : DeleteRequest) (env : DeleteEnv)
    (hm : req.method ≠ "OPTIONS") :
    ((deleteAdminProduct req env).1.status,
      successFlag (deleteAdminProduct req env).1.body,
      (deleteAdminProduct req env).2) = deleteGuardOutcome req env
    ∧ (deleteAdminProduct req env).2
      = (req.authHeader.isSome && env.userError.isNone && env.user.isSome
          && env.isAdminError.isNone && env.isAdminResult && req.id.isSome) := by
  unfold deleteAdminProduct deleteGuardOutcome successFlag
  rw [if_neg hm]
  constructor <;>
  · cases hah : req.authHeader <;>
      cases hue : env.userError <;>
      cases hu : env.user <;>
      cases hiae : env.isAdminError <;>
      cases hiar : env.isAdminResult <;>
      cases hid : req.id <;>
      cases hde : env.deleteError <;>
      rfl

/-- A sample delete request lacking the `id` query parameter. -/
def reqNoId : DeleteRequest :=
  { method := "DELETE", authHeader := some "t", id := none }

/-- A sample environment where authentication and the admin check succeed. -/
def envAdminOk : DeleteEnv :=
  { user := some "u", userError := none, isAdminResult := true,
    isAdminError := none, deleteError := none }

theorem deleteAdminProduct_guard_order_witness :
    ("DELETE" : String) ≠ "OPTIONS"
    ∧ ((deleteAdminProduct reqNoId envAdminOk).1.status,
       successFlag (deleteAdminProduct reqNoId envAdminOk).1.body,
       (deleteAdminProduct reqNoId envAdminOk).2)
      = deleteGuardOutcome reqNoId envAdminOk
    ∧ (deleteAdminProduct reqNoId envAdminOk).2 = false := by
  have h := deleteAdminProduct_guard_order reqNoId envAdminOk (by decide)
  exact ⟨by decide, h.1, h.2⟩

end YoFinance
